import Mathlib

/-!
Verification of the Personal-Research-Assistant pipeline core: the shared
research state and its merge semantics (src/app/agent/state.py), the five
workflow nodes (src/app/agent/nodes.py), the planning / report chains
(src/app/chains/planning_chain.py, src/app/chains/report_chain.py), and the
continuation predicate.  External capabilities (LLM calls, web search, page
scraping) are parameters of the node functions; an `Except String` result
models a Python call that either returns a value or raises an exception whose
message is the string.
-/

namespace ResearchAgent

/-- One web-search result as produced by WebSearchTool.search
(src/app/tools/search_tool.py): a dict with url, title, content and a
floating-point relevance score.  The score is a payload the pipeline core
never reads, so it is not carried in the embedding. -/
structure SourceHit where
  url : String
  title : String
  content : String
deriving DecidableEq, Repr

/-- One scrape outcome as produced by WebScraperTool.scrape
(src/app/tools/scraper_tool.py): success flag plus payload fields that are
present on success and absent on failure. -/
structure ScrapedPage where
  success : Bool
  url : String
  title : String
  content : String
  word_count : Nat
  status_code : Option Nat
  error : Option String
deriving DecidableEq, Repr

/-- One summary outcome as produced by SummaryChain.summarize
(src/app/chains/summary_chain.py): both the success and the failure dict carry
url and title; topic and the summary text are present only on success, the
error message only on failure. -/
structure Summary where
  success : Bool
  topic : Option String
  url : String
  title : String
  summary : Option String
  error : Option String
deriving DecidableEq, Repr

/-- A clean source entry of the report metadata, as built by
ReportChain._extract_source_list (src/app/chains/report_chain.py). -/
structure SourceRef where
  title : String
  url : String
deriving DecidableEq, Repr

/-- The report_metadata record assembled by report_generation_node
(src/app/agent/nodes.py lines 228-233); each field is read from the report
result dict with .get, hence optional. -/
structure ReportMetadata where
  word_count : Option Nat
  num_sources : Option Nat
  generated_at : Option String
  sources : List SourceRef
deriving DecidableEq, Repr

/-- The dict returned by ReportChain.generate_report
(src/app/chains/report_chain.py): on success it carries the report text and
metadata; on failure only the success flag and an error message. -/
structure ReportResult where
  success : Bool
  topic : Option String
  report : Option String
  num_sources : Option Nat
  word_count : Option Nat
  generated_at : Option String
  sources : List SourceRef
  error : Option String
deriving DecidableEq, Repr

/-- The ResearchState TypedDict of src/app/agent/state.py.  search_results,
scraped_content and summaries are the three fields declared with the
`operator.add` reducer (state.py lines 22-26). -/
structure ResearchState where
  topic : String
  depth : String
  max_sources : Nat
  research_plan : Option String
  search_queries : List String
  search_results : List SourceHit
  scraped_content : List ScrapedPage
  summaries : List Summary
  final_report : Option String
  report_metadata : Option ReportMetadata
  current_step : String
  queries_executed : Nat
  pages_scraped : Nat
  should_continue : Bool
  error : Option String
deriving DecidableEq, Repr

/-- create_initial_state of src/app/agent/state.py. -/
def create_initial_state (topic : String) (depth : String) (max_sources : Nat) :
    ResearchState :=
  { topic := topic
    depth := depth
    max_sources := max_sources
    research_plan := none
    search_queries := []
    search_results := []
    scraped_content := []
    summaries := []
    final_report := none
    report_metadata := none
    current_step := "initialized"
    queries_executed := 0
    pages_scraped := 0
    should_continue := true
    error := none }

/-- A partial state update as returned by a node: the Python dict holds only
the keys the node sets, so every field is optional, `none` meaning the key is
absent from the dict. -/
structure StateUpdate where
  topic : Option String := none
  depth : Option String := none
  max_sources : Option Nat := none
  research_plan : Option String := none
  search_queries : Option (List String) := none
  search_results : Option (List SourceHit) := none
  scraped_content : Option (List ScrapedPage) := none
  summaries : Option (List Summary) := none
  final_report : Option String := none
  report_metadata : Option ReportMetadata := none
  current_step : Option String := none
  queries_executed : Option Nat := none
  pages_scraped : Option Nat := none
  should_continue : Option Bool := none
  error : Option String := none
deriving DecidableEq, Repr

/-- Overwrite an optional state field with the update's value when the key is
present, keep the old value otherwise. -/
def overwriteOpt {α : Type} (new : Option α) (old : Option α) : Option α :=
  match new with
  | some v => some v
  | none => old

/-- Modelled from the spec: the merge the Orchestrator applies after every
stage (spec section 4.1); the merge engine itself is the LangGraph channel
mechanism, which is not part of this repository's sources.  Fields absent from
the update are left untouched; search_results, scraped_content and summaries
are exactly the fields declared with the `operator.add` reducer in
src/app/agent/state.py lines 22-26 and are concatenated; every other present
field is overwritten. -/
def mergeState (s : ResearchState) (u : StateUpdate) : ResearchState :=
  { topic := u.topic.getD s.topic
    depth := u.depth.getD s.depth
    max_sources := u.max_sources.getD s.max_sources
    research_plan := overwriteOpt u.research_plan s.research_plan
    search_queries := u.search_queries.getD s.search_queries
    search_results := s.search_results ++ u.search_results.getD []
    scraped_content := s.scraped_content ++ u.scraped_content.getD []
    summaries := s.summaries ++ u.summaries.getD []
    final_report := overwriteOpt u.final_report s.final_report
    report_metadata := overwriteOpt u.report_metadata s.report_metadata
    current_step := u.current_step.getD s.current_step
    queries_executed := u.queries_executed.getD s.queries_executed
    pages_scraped := u.pages_scraped.getD s.pages_scraped
    should_continue := u.should_continue.getD s.should_continue
    error := overwriteOpt u.error s.error }

/-- Truthiness of a Python optional string: `if state.get('error')` is taken
exactly when the value is present and a non-empty string. -/
def errTruthy : Option String → Bool
  | some m => m != ""
  | none => false

/-- should_continue_research of src/app/agent/nodes.py lines 250-269, on the
two dict entries it reads; `none` models an absent key. -/
def should_continue_research (error : Option String) (should_continue : Option Bool) :
    String :=
  if errTruthy error then "end"
  else if should_continue.getD true then "continue"
  else "end"

/-- The depth-to-query-count table of planning_node
(src/app/agent/nodes.py lines 41-46): quick 2, standard 5, detailed 8, any
other depth defaults to 5. -/
def depth_to_queries (depth : String) : Nat :=
  if depth = "quick" then 2
  else if depth = "standard" then 5
  else if depth = "detailed" then 8
  else 5

/-- planning_node of src/app/agent/nodes.py lines 27-66.  The planner
capability (PlanningChain.generate_search_queries, awaited at line 49) is a
parameter; `.error e` models the awaited call raising an exception with
message `e`, which the node's except branch turns into an error update. -/
def planning_node (planner : String → Nat → Except String (List String))
    (s : ResearchState) : StateUpdate :=
  match planner s.topic (depth_to_queries s.depth) with
  | .ok queries =>
      { search_queries := some queries
        current_step := some "planning_complete" }
  | .error e =>
      { error := some ("Planning failed: " ++ e)
        should_continue := some false }

/-- The fallback queries PlanningChain.generate_search_queries returns when
the provider call raises (src/app/chains/planning_chain.py lines 96-104),
before the final truncation to num_queries. -/
def fallback_queries (topic : String) : List String :=
  [topic,
   topic ++ " latest developments",
   topic ++ " recent advances",
   topic ++ " research 2024",
   topic ++ " overview"]

/-- PlanningChain.generate_search_queries of src/app/chains/planning_chain.py
lines 70-104.  `chainResp` is the outcome of awaiting the quick LLM chain:
`.ok response` is the raw text, `.error` models the provider raising.  Note
the function is total: a provider failure is swallowed and answered with the
fallback queries. -/
def generate_search_queries (chainResp : Except String String) (topic : String)
    (num_queries : Nat) : List String :=
  match chainResp with
  | .ok response =>
      let queries := ((response.splitOn "\n").map String.trim).filter
        (fun q => q ≠ "")
      let queries :=
        if queries.length < num_queries then
          queries ++ [topic ++ " recent developments", topic ++ " latest research"]
        else queries
      queries.take num_queries
  | .error _ => (fallback_queries topic).take num_queries

/-- The query loop of search_node (src/app/agent/nodes.py lines 84-91): each
query is passed to the search capability with max_results = 2 and the result
lists are concatenated in query order; an exception at any call aborts the
whole try block. -/
def runSearches (searcher : String → Nat → Except String (List SourceHit)) :
    List String → Except String (List SourceHit)
  | [] => .ok []
  | q :: rest =>
      match searcher q 2 with
      | .error e => .error e
      | .ok results =>
          match runSearches searcher rest with
          | .error e => .error e
          | .ok more => .ok (results ++ more)

/-- The deduplication loop of search_node (src/app/agent/nodes.py lines
93-100), with the running set of seen URLs made explicit: an entry is kept
when its url is non-empty (Python truthiness of the string) and not seen
before, in which case the url joins the seen set. -/
def dedupSeen : List SourceHit → List String → List SourceHit
  | [], _ => []
  | r :: rest, seen =>
      if r.url ≠ "" ∧ r.url ∉ seen then r :: dedupSeen rest (r.url :: seen)
      else dedupSeen rest seen

/-- Deduplication as search_node performs it, starting from an empty seen
set. -/
def dedupByUrl (l : List SourceHit) : List SourceHit :=
  dedupSeen l []

/-- The whole data reduction of search_node: deduplicate the concatenated
results by URL, then truncate to max_sources (src/app/agent/nodes.py lines
93-103). -/
def searchReduce (all_results : List SourceHit) (max_sources : Nat) :
    List SourceHit :=
  (dedupByUrl all_results).take max_sources

/-- search_node of src/app/agent/nodes.py lines 68-118. -/
def search_node (searcher : String → Nat → Except String (List SourceHit))
    (s : ResearchState) : StateUpdate :=
  match runSearches searcher s.search_queries with
  | .ok all_results =>
      { search_results := some (searchReduce all_results s.max_sources)
        queries_executed := some s.search_queries.length
        current_step := some "search_complete" }
  | .error e =>
      { error := some ("Search failed: " ++ e)
        should_continue := some false }

/-- The scraping loop of scraping_node (src/app/agent/nodes.py lines
133-152): entries with an empty url are skipped, every other entry's url is
scraped in order, and only outcomes whose success flag is set are kept; an
exception at any scrape call aborts the whole try block. -/
def runScrapes (scraper : String → Except String ScrapedPage) :
    List SourceHit → Except String (List ScrapedPage)
  | [] => .ok []
  | r :: rest =>
      if r.url = "" then runScrapes scraper rest
      else
        match scraper r.url with
        | .error e => .error e
        | .ok content =>
            match runScrapes scraper rest with
            | .error e => .error e
            | .ok pages => .ok (if content.success then content :: pages else pages)

/-- scraping_node of src/app/agent/nodes.py lines 120-167. -/
def scraping_node (scraper : String → Except String ScrapedPage)
    (s : ResearchState) : StateUpdate :=
  match runScrapes scraper s.search_results with
  | .ok scraped_pages =>
      { scraped_content := some scraped_pages
        pages_scraped := some scraped_pages.length
        current_step := some "scraping_complete" }
  | .error e =>
      { error := some ("Scraping failed: " ++ e)
        should_continue := some false }

/-- summarization_node of src/app/agent/nodes.py lines 169-202.  Modelled
from the spec: the node awaits `self.summarizer.summarize_multiple`, but
SummaryChain (src/app/chains/summary_chain.py) defines no such method, so the
batch summarization capability is modelled from the spec's summarizeBatch
contract (spec section 6) as a parameter.  The second component of the result
records the (topic, batch) argument pair of each capability invocation the
node performs: the code calls it exactly once, at lines 183-186, with the
full scraped_content batch. -/
def summarization_node
    (summarizer : String → List ScrapedPage → Except String (List Summary))
    (s : ResearchState) : StateUpdate × List (String × List ScrapedPage) :=
  (match summarizer s.topic s.scraped_content with
   | .ok summaries =>
       { summaries := some summaries
         current_step := some "summarization_complete" }
   | .error e =>
       { error := some ("Summarization failed: " ++ e)
         should_continue := some false },
   [(s.topic, s.scraped_content)])

/-- ReportChain._extract_source_list of src/app/chains/report_chain.py lines
98-117: the clean {title, url} pairs of exactly the successful summaries, in
order. -/
def extract_source_list (summaries : List Summary) : List SourceRef :=
  (summaries.filter (fun s => s.success)).map
    (fun s => { title := s.title, url := s.url })

/-- Python's str.split() word count used at report_chain.py line 52: split on
whitespace and count the non-empty pieces. -/
def wordCount (report : String) : Nat :=
  ((report.split (fun c => c.isWhitespace)).filter (fun w => w ≠ "")).length

/-- ReportChain.generate_report of src/app/chains/report_chain.py lines
25-68.  `chainResp` is the outcome of awaiting the LLM chain on the formatted
summaries; `now` stands for datetime.now().isoformat(), an external input.
On success the dict carries the report and its metadata, on failure only the
error; the function itself never raises. -/
def generate_report (chainResp : Except String String) (now : String)
    (topic : String) (summaries : List Summary) : ReportResult :=
  match chainResp with
  | .ok report =>
      { success := true
        topic := some topic
        report := some report
        num_sources := some summaries.length
        word_count := some (wordCount report)
        generated_at := some now
        sources := extract_source_list summaries
        error := none }
  | .error e =>
      { success := false
        topic := none
        report := none
        num_sources := none
        word_count := none
        generated_at := none
        sources := []
        error := some e }

/-- report_generation_node of src/app/agent/nodes.py lines 204-246.  When the
capability returns a dict with success false the node raises with the dict's
error message (default "Unknown error") and the except branch prefixes it,
exactly as a raising call would be handled. -/
def report_generation_node
    (reporter : String → List Summary → Except String ReportResult)
    (s : ResearchState) : StateUpdate :=
  match reporter s.topic s.summaries with
  | .ok report_result =>
      if report_result.success then
        { final_report := report_result.report
          report_metadata := some
            { word_count := report_result.word_count
              num_sources := report_result.num_sources
              generated_at := report_result.generated_at
              sources := report_result.sources }
          current_step := some "completed"
          should_continue := some false }
      else
        { error := some ("Report generation failed: " ++
            (report_result.error.getD "Unknown error"))
          should_continue := some false
          current_step := some "failed" }
  | .error e =>
      { error := some ("Report generation failed: " ++ e)
        should_continue := some false
        current_step := some "failed" }

/-- Modelled from the spec: the Search stage's data reduction in the spec's
own words (spec section 4.4): deduplicate by URL keeping the first
occurrence, dropping later duplicates and any entry with an empty URL.  Kept
as a second definition distinct from dedupByUrl so the code's seen-set loop
can be proved to refine it. -/
def firstOccurrences (l : List SourceHit) : List SourceHit :=
  match l with
  | [] => []
  | r :: rest =>
      if r.url = "" then firstOccurrences rest
      else r :: firstOccurrences (rest.filter (fun x => x.url ≠ r.url))
termination_by l.length
decreasing_by
  · simp
  · exact Nat.lt_succ_of_le (List.length_filter_le _ _)

/-- The five pipeline stages in their fixed order. -/
inductive Stage where
  | plan
  | search
  | scrape
  | summarize
  | report
deriving DecidableEq, Repr

/-- The bundle of external capabilities the five nodes consume (spec section
6); each may raise, modelled by `.error`. -/
structure Capabilities where
  planner : String → Nat → Except String (List String)
  searcher : String → Nat → Except String (List SourceHit)
  scraper : String → Except String ScrapedPage
  summarizer : String → List ScrapedPage → Except String (List Summary)
  reporter : String → List Summary → Except String ReportResult

/-- Dispatch a stage to its node function. -/
def applyStage (caps : Capabilities) (st : Stage) (s : ResearchState) :
    StateUpdate :=
  match st with
  | .plan => planning_node caps.planner s
  | .search => search_node caps.searcher s
  | .scrape => scraping_node caps.scraper s
  | .summarize => (summarization_node caps.summarizer s).1
  | .report => report_generation_node caps.reporter s

/-- The continuation predicate applied to a full state: the graph hands the
whole state dict to should_continue_research, where both keys are present. -/
def decideState (s : ResearchState) : String :=
  should_continue_research s.error (some s.should_continue)

/-- Invoke a stage on the current state and merge its update. -/
def stepState (caps : Capabilities) (s : ResearchState) (st : Stage) :
    ResearchState :=
  mergeState s (applyStage caps st s)

/-- The fixed stage order Plan, Search, Scrape, Summarize, Report. -/
def pipelineStages : List Stage :=
  [.plan, .search, .scrape, .summarize, .report]

/-- Modelled from the spec: the Orchestrator loop (spec section 4.2); the
repository wires the nodes into a LangGraph graph that is not present under
src/.  For each stage in order: invoke it with the current state, merge its
update, evaluate the continuation predicate, and stop immediately unless it
signals "continue".  Returns the final state together with the list of
stages that were invoked. -/
def runFrom (caps : Capabilities) : List Stage → ResearchState →
    ResearchState × List Stage
  | [], s => (s, [])
  | st :: rest, s =>
      let s2 := stepState caps s st
      if decideState s2 = "continue" then
        let res := runFrom caps rest s2
        (res.1, st :: res.2)
      else (s2, [st])

/-- Modelled from the spec: one full pipeline run over the five stages. -/
def runPipeline (caps : Capabilities) (s0 : ResearchState) :
    ResearchState × List Stage :=
  runFrom caps pipelineStages s0

/-- The current_step tags of the spec's state table (spec section 3). -/
def stepTags : List String :=
  ["initialized", "planning_complete", "search_complete", "scraping_complete",
   "summarization_complete", "completed", "failed"]

/-- Sanity conditions every node update satisfies: error messages are
non-empty, current_step values are legal tags, and a "failed" step comes with
a non-empty error in the same update. -/
def updateOK (u : StateUpdate) : Prop :=
  (∀ m, u.error = some m → m ≠ "") ∧
  (∀ c, u.current_step = some c → c ∈ stepTags) ∧
  (u.current_step = some "failed" → ∃ m, u.error = some m ∧ m ≠ "")

/-- The run invariant behind the terminal-state claim: the step tag is legal
and a "failed" tag is accompanied by a non-empty error message. -/
def stateOK (s : ResearchState) : Prop :=
  s.current_step ∈ stepTags ∧
  (s.current_step = "failed" → ∃ m, s.error = some m ∧ m ≠ "")

/-- A stage-level failure update together with its frame effect: the update
holds exactly error and should_continue, and merging it leaves every other
field of the state unchanged. -/
def pureFailureFrame (s : ResearchState) (u : StateUpdate) (msg : String) :
    Prop :=
  u.error = some msg ∧ u.should_continue = some false ∧
  u.topic = none ∧ u.depth = none ∧ u.max_sources = none ∧
  u.research_plan = none ∧ u.search_queries = none ∧ u.search_results = none ∧
  u.scraped_content = none ∧ u.summaries = none ∧ u.final_report = none ∧
  u.report_metadata = none ∧ u.current_step = none ∧
  u.queries_executed = none ∧ u.pages_scraped = none ∧
  (mergeState s u).current_step = s.current_step ∧
  (mergeState s u).search_queries = s.search_queries ∧
  (mergeState s u).search_results = s.search_results ∧
  (mergeState s u).scraped_content = s.scraped_content ∧
  (mergeState s u).summaries = s.summaries ∧
  (mergeState s u).queries_executed = s.queries_executed ∧
  (mergeState s u).pages_scraped = s.pages_scraped ∧
  (mergeState s u).final_report = s.final_report ∧
  (mergeState s u).report_metadata = s.report_metadata ∧
  (mergeState s u).error = some msg ∧
  (mergeState s u).should_continue = false

/-- Appending to a non-empty string stays non-empty; used for the nodes'
prefixed error messages. -/
theorem str_append_ne_empty (p q : String) (h : p.length ≠ 0) : p ++ q ≠ "" := by
  intro hEq
  have hl := congrArg String.length hEq
  rw [String.length_append] at hl
  have hz : String.length "" = 0 := rfl
  omega

/-- The continuation predicate takes only the two values "continue" and
"end". -/
theorem decideState_ne_continue {s : ResearchState}
    (h : decideState s ≠ "continue") : decideState s = "end" := by
  by_cases h1 : errTruthy s.error
  · simp [decideState, should_continue_research, h1]
  · by_cases h2 : (some s.should_continue).getD true
    · exact absurd (by simp [decideState, should_continue_research, h1, h2]) h
    · simp [decideState, should_continue_research, h1, h2]

/-- Unfolding lemma for the spec-side dedup on an empty list. -/
theorem firstOccurrences_nil : firstOccurrences [] = [] := by
  rw [firstOccurrences]

/-- Unfolding lemma for the spec-side dedup on a cons. -/
theorem firstOccurrences_cons (r : SourceHit) (rest : List SourceHit) :
    firstOccurrences (r :: rest) =
      if r.url = "" then firstOccurrences rest
      else r :: firstOccurrences (rest.filter (fun x => x.url ≠ r.url)) := by
  rw [firstOccurrences]

/-- Filtering out one more seen url commutes with filtering the rest of the
seen set. -/
theorem filter_filter_urls (u : String) (seen : List String)
    (rest : List SourceHit) :
    (rest.filter (fun x => x.url ∉ seen)).filter (fun x => x.url ≠ u) =
      rest.filter (fun x => x.url ∉ u :: seen) := by
  induction rest with
  | nil => rfl
  | cons a t ih =>
      by_cases h2 : a.url = u
      · subst h2
        by_cases h1 : a.url ∈ seen <;> simp [List.filter_cons, h1, ih]
      · by_cases h1 : a.url ∈ seen <;> simp [List.filter_cons, h1, h2, ih]

/-- The code's seen-set dedup loop computes the spec's first-occurrence
reduction of the not-yet-seen entries. -/
theorem dedupSeen_eq_firstOccurrences (l : List SourceHit) :
    ∀ seen : List String,
      dedupSeen l seen = firstOccurrences (l.filter (fun x => x.url ∉ seen)) := by
  induction l with
  | nil => intro seen; simp [dedupSeen, firstOccurrences_nil]
  | cons r rest ih =>
      intro seen
      by_cases h0 : r.url = ""
      · by_cases h1 : r.url ∈ seen
        · simp only [dedupSeen]
          rw [if_neg (fun h => h.1 h0), ih seen]
          congr 1
          simp [List.filter_cons, h1]
        · simp only [dedupSeen]
          rw [if_neg (fun h => h.1 h0), ih seen]
          have hfc : (r :: rest).filter (fun x => x.url ∉ seen) =
              r :: rest.filter (fun x => x.url ∉ seen) := by
            simp [List.filter_cons, h1]
          rw [hfc, firstOccurrences_cons, if_pos h0]
      · by_cases h1 : r.url ∈ seen
        · simp only [dedupSeen]
          rw [if_neg (fun h => h.2 h1), ih seen]
          congr 1
          simp [List.filter_cons, h1]
        · simp only [dedupSeen]
          rw [if_pos ⟨h0, h1⟩, ih (r.url :: seen)]
          have hfc : (r :: rest).filter (fun x => x.url ∉ seen) =
              r :: rest.filter (fun x => x.url ∉ seen) := by
            simp [List.filter_cons, h1]
          rw [hfc, firstOccurrences_cons, if_neg h0, filter_filter_urls]

/-- The code's dedup loop is exactly the spec's first-occurrence-by-URL
reduction. -/
theorem dedupByUrl_eq_firstOccurrences (l : List SourceHit) :
    dedupByUrl l = firstOccurrences l := by
  rw [dedupByUrl, dedupSeen_eq_firstOccurrences]
  congr 1
  simp

/-- Every entry the dedup loop keeps has a non-empty, previously unseen URL,
and the kept URLs are pairwise distinct. -/
theorem dedupSeen_props (l : List SourceHit) :
    ∀ seen : List String,
      (∀ r ∈ dedupSeen l seen, r.url ≠ "" ∧ r.url ∉ seen) ∧
        ((dedupSeen l seen).map (fun r => r.url)).Nodup := by
  induction l with
  | nil => intro seen; simp [dedupSeen]
  | cons r rest ih =>
      intro seen
      by_cases h : r.url ≠ "" ∧ r.url ∉ seen
      · have ih2 := ih (r.url :: seen)
        simp only [dedupSeen, if_pos h]
        constructor
        · intro x hx
          rcases List.mem_cons.mp hx with hx | hx
          · subst hx; exact h
          · have := ih2.1 x hx
            exact ⟨this.1, fun hc => this.2 (List.mem_cons_of_mem _ hc)⟩
        · rw [List.map_cons, List.nodup_cons]
          refine ⟨?_, ih2.2⟩
          intro hc
          rcases List.mem_map.mp hc with ⟨x, hx, hxu⟩
          exact (ih2.1 x hx).2 (hxu ▸ List.mem_cons_self _ _)
      · simp only [dedupSeen, if_neg h]
        exact ih seen

/-- On a list whose URLs are non-empty, unseen and pairwise distinct, the
dedup loop keeps everything. -/
theorem dedupSeen_eq_self (l : List SourceHit) :
    ∀ seen : List String,
      (∀ r ∈ l, r.url ≠ "" ∧ r.url ∉ seen) →
      ((l.map (fun r => r.url)).Nodup) →
      dedupSeen l seen = l := by
  induction l with
  | nil => intro seen _ _; rfl
  | cons r rest ih =>
      intro seen h1 h2
      have hr := h1 r (List.mem_cons_self _ _)
      rw [List.map_cons, List.nodup_cons] at h2
      simp only [dedupSeen, if_pos hr]
      congr 1
      apply ih
      · intro x hx
        refine ⟨(h1 x (List.mem_cons_of_mem _ hx)).1, ?_⟩
        intro hc
        rcases List.mem_cons.mp hc with hc | hc
        · exact h2.1 (hc ▸ List.mem_map_of_mem (fun r => r.url) hx)
        · exact (h1 x (List.mem_cons_of_mem _ hx)).2 hc
      · exact h2.2

/-- The Search reduction leaves its own output fixed under a second dedup. -/
theorem dedupByUrl_searchReduce (all : List SourceHit) (m : Nat) :
    dedupByUrl (searchReduce all m) = searchReduce all m := by
  have hprops := dedupSeen_props all []
  apply dedupSeen_eq_self
  · intro r hr
    have hmem : r ∈ dedupByUrl all := by
      rw [searchReduce] at hr
      exact List.take_subset m _ hr
    exact ⟨(hprops.1 r hmem).1, fun hc => (List.not_mem_nil r.url) hc⟩
  · have hsub : List.Sublist ((searchReduce all m).map (fun r => r.url))
        ((dedupByUrl all).map (fun r => r.url)) := by
      rw [searchReduce]
      exact List.Sublist.map _ (List.take_sublist m _)
    exact List.Nodup.sublist hsub hprops.2

/-- The Search reduction is idempotent. -/
theorem searchReduce_idem (all : List SourceHit) (m : Nat) :
    searchReduce (searchReduce all m) m = searchReduce all m := by
  rw [searchReduce, dedupByUrl_searchReduce, searchReduce, List.take_take,
    min_self]

/-- The Search reduction never returns more than max_sources entries. -/
theorem searchReduce_length_le (all : List SourceHit) (m : Nat) :
    (searchReduce all m).length ≤ m := by
  rw [searchReduce]
  exact List.length_take_le m _

/-- When no search call raises, the query loop returns the per-query result
lists concatenated in query order. -/
theorem runSearches_ok (resultsFor : String → List SourceHit)
    (qs : List String) :
    runSearches (fun q _ => .ok (resultsFor q)) qs =
      .ok (qs.map resultsFor).flatten := by
  induction qs with
  | nil => rfl
  | cons q rest ih => simp [runSearches, ih]

/-- When no scrape call raises, the scrape loop visits the entries with a
non-empty URL in order and keeps exactly the successful outcomes, in input
order. -/
theorem runScrapes_ok (f : String → ScrapedPage) (results : List SourceHit) :
    runScrapes (fun u => .ok (f u)) results =
      .ok (((results.filter (fun r => r.url ≠ "")).map
        (fun r => f r.url)).filter (fun p => p.success)) := by
  induction results with
  | nil => rfl
  | cons r rest ih =>
      by_cases h : r.url = ""
      · simp [runScrapes, h, List.filter_cons, ih]
      · by_cases hs : (f r.url).success <;>
          simp [runScrapes, h, List.filter_cons, ih, hs]

/-- Every source in the extracted clean list comes from a successful
summary, carrying its title and url. -/
theorem extract_source_list_sound (summaries : List Summary) :
    ∀ src ∈ extract_source_list summaries,
      ∃ sm ∈ summaries, sm.success = true ∧
        src.title = sm.title ∧ src.url = sm.url := by
  intro src hsrc
  rcases List.mem_map.mp hsrc with ⟨sm, hsm, heq⟩
  rcases List.mem_filter.mp hsm with ⟨hmem, hsucc⟩
  exact ⟨sm, hmem, by simpa using hsucc, by rw [← heq], by rw [← heq]⟩

/-- Every update a node can produce is well-formed: non-empty error
messages, legal current_step tags, and "failed" only together with an
error in the same update. -/
theorem applyStage_updateOK (caps : Capabilities) (st : Stage)
    (s : ResearchState) : updateOK (applyStage caps st s) := by
  cases st with
  | plan =>
      unfold applyStage planning_node
      cases caps.planner s.topic (depth_to_queries s.depth) with
      | ok queries =>
          refine ⟨?_, ?_, ?_⟩ <;> simp [stepTags]
      | error e =>
          refine ⟨?_, ?_, ?_⟩ <;> simp [stepTags]
          exact fun hEq => str_append_ne_empty "Planning failed: " e (by decide) hEq
  | search =>
      unfold applyStage search_node
      cases runSearches caps.searcher s.search_queries with
      | ok all_results =>
          refine ⟨?_, ?_, ?_⟩ <;> simp [stepTags]
      | error e =>
          refine ⟨?_, ?_, ?_⟩ <;> simp [stepTags]
          exact fun hEq => str_append_ne_empty "Search failed: " e (by decide) hEq
  | scrape =>
      unfold applyStage scraping_node
      cases runScrapes caps.scraper s.search_results with
      | ok pages =>
          refine ⟨?_, ?_, ?_⟩ <;> simp [stepTags]
      | error e =>
          refine ⟨?_, ?_, ?_⟩ <;> simp [stepTags]
          exact fun hEq => str_append_ne_empty "Scraping failed: " e (by decide) hEq
  | summarize =>
      unfold applyStage summarization_node
      cases caps.summarizer s.topic s.scraped_content with
      | ok summaries =>
          refine ⟨?_, ?_, ?_⟩ <;> simp [stepTags]
      | error e =>
          refine ⟨?_, ?_, ?_⟩ <;> simp [stepTags]
          exact fun hEq => str_append_ne_empty "Summarization failed: " e (by decide) hEq
  | report =>
      unfold applyStage report_generation_node
      cases caps.reporter s.topic s.summaries with
      | ok r =>
          by_cases hr : r.success
          · refine ⟨?_, ?_, ?_⟩ <;> simp [hr, stepTags]
          · refine ⟨?_, ?_, ?_⟩ <;> simp [hr, stepTags]
            · exact fun h =>
                str_append_ne_empty "Report generation failed: " _ (by decide) h
            · exact fun h =>
                str_append_ne_empty "Report generation failed: " _ (by decide) h
      | error e =>
          refine ⟨?_, ?_, ?_⟩ <;> simp [stepTags]
          · exact fun h =>
              str_append_ne_empty "Report generation failed: " e (by decide) h
          · exact fun h =>
              str_append_ne_empty "Report generation failed: " e (by decide) h

/-- Merging a well-formed update preserves the run invariant. -/
theorem mergeState_stateOK {s : ResearchState} {u : StateUpdate}
    (hs : stateOK s) (hu : updateOK u) : stateOK (mergeState s u) := by
  rcases hu with ⟨hu1, hu2, hu3⟩
  rcases hs with ⟨hs1, hs2⟩
  constructor
  · cases hc : u.current_step with
    | none => simpa [mergeState, hc] using hs1
    | some c =>
        have : (mergeState s u).current_step = c := by simp [mergeState, hc]
        rw [this]
        exact hu2 c hc
  · intro hf
    cases hc : u.current_step with
    | some c =>
        have hcc : c = "failed" := by
          have : (mergeState s u).current_step = c := by simp [mergeState, hc]
          rw [this] at hf
          exact hf
        obtain ⟨m, hm, hne⟩ := hu3 (by rw [hc, hcc])
        exact ⟨m, by simp [mergeState, overwriteOpt, hm], hne⟩
    | none =>
        have hsf : s.current_step = "failed" := by
          have : (mergeState s u).current_step = s.current_step := by
            simp [mergeState, hc]
          rw [this] at hf
          exact hf
        obtain ⟨m, hm, hne⟩ := hs2 hsf
        cases he : u.error with
        | none => exact ⟨m, by simp [mergeState, overwriteOpt, he, hm], hne⟩
        | some m2 =>
            exact ⟨m2, by simp [mergeState, overwriteOpt, he], hu1 m2 he⟩

/-- The run invariant holds at every state the pipeline loop can end in. -/
theorem runFrom_stateOK (caps : Capabilities) (l : List Stage) :
    ∀ s : ResearchState, stateOK s → stateOK (runFrom caps l s).1 := by
  induction l with
  | nil => intro s hs; simpa [runFrom] using hs
  | cons st rest ih =>
      intro s hs
      have h2 : stateOK (stepState caps s st) :=
        mergeState_stateOK hs (applyStage_updateOK caps st s)
      by_cases hd : decideState (stepState caps s st) = "continue"
      · have hrun : (runFrom caps (st :: rest) s).1 =
            (runFrom caps rest (stepState caps s st)).1 := by
          simp [runFrom, hd]
        rw [hrun]
        exact ih _ h2
      · have hrun : (runFrom caps (st :: rest) s).1 = stepState caps s st := by
          simp [runFrom, hd]
        rw [hrun]
        exact h2

/-- Structure of one loop pass: the executed stages are a non-empty prefix
of the requested list, the final state is the left fold of merge-steps over
exactly the executed stages, the predicate said "continue" after every merge
but the last, and if the loop stopped early the predicate said "end" at the
final state. -/
theorem runFrom_spec (caps : Capabilities) (l : List Stage) :
    ∀ s : ResearchState,
      (runFrom caps l s).2 <+: l ∧
      (runFrom caps l s).1 = (runFrom caps l s).2.foldl (stepState caps) s ∧
      ((runFrom caps l s).2.length < l.length →
        decideState (runFrom caps l s).1 = "end") ∧
      (∀ k, k + 1 < (runFrom caps l s).2.length →
        decideState (((runFrom caps l s).2.take (k + 1)).foldl
          (stepState caps) s) = "continue") ∧
      (l ≠ [] → (runFrom caps l s).2 ≠ []) := by
  induction l with
  | nil =>
      intro s
      refine ⟨by simp [runFrom], by simp [runFrom], ?_, ?_, by simp⟩
      · intro h; simp [runFrom] at h
      · intro k hk; simp [runFrom] at hk
  | cons st rest ih =>
      intro s
      have ihs := ih (stepState caps s st)
      by_cases hd : decideState (stepState caps s st) = "continue"
      · have hrun : runFrom caps (st :: rest) s =
            ((runFrom caps rest (stepState caps s st)).1,
              st :: (runFrom caps rest (stepState caps s st)).2) := by
          simp [runFrom, hd]
        rw [hrun]
        refine ⟨?_, ?_, ?_, ?_, ?_⟩
        · rcases ihs.1 with ⟨t, ht⟩
          exact ⟨t, by rw [List.cons_append, ht]⟩
        · simpa using ihs.2.1
        · intro hlen
          exact ihs.2.2.1 (by simpa using hlen)
        · intro k hk
          cases k with
          | zero => simpa using hd
          | succ j =>
              have hj := ihs.2.2.2.1 j (by simpa using hk)
              simpa using hj
        · intro _; simp
      · have hrun : runFrom caps (st :: rest) s = (stepState caps s st, [st]) := by
          simp [runFrom, hd]
        rw [hrun]
        refine ⟨⟨rest, rfl⟩, by simp, ?_, ?_, by simp⟩
        · intro _
          exact decideState_ne_continue hd
        · intro k hk
          simp at hk

/-- A concrete search hit used by witnesses. -/
def hitA : SourceHit :=
  { url := "https://a.example", title := "A", content := "alpha" }

/-- A second concrete search hit with a distinct URL. -/
def hitB : SourceHit :=
  { url := "https://b.example", title := "B", content := "beta" }

/-- A concrete successful scrape outcome. -/
def pageA : ScrapedPage :=
  { success := true, url := "https://a.example", title := "A",
    content := "alpha text", word_count := 2, status_code := some 200,
    error := none }

/-- A concrete successful summary outcome. -/
def sumA : Summary :=
  { success := true, topic := some "t", url := "https://a.example",
    title := "A", summary := some "summary a", error := none }

/-- A concrete failed summary outcome. -/
def sumFail : Summary :=
  { success := false, topic := none, url := "https://b.example",
    title := "B", summary := none, error := some "boom" }

/-- A concrete mid-run state used by witnesses: one query, two search
results, one scraped page. -/
def exState : ResearchState :=
  { create_initial_state "t" "standard" 5 with
    search_queries := ["q1"]
    search_results := [hitA, hitB]
    scraped_content := [pageA]
    summaries := [sumA, sumFail] }

/-- A capability bundle whose planner raises and whose other capabilities
answer trivially. -/
def plannerDownCaps : Capabilities :=
  { planner := fun _ _ => .error "LLM down"
    searcher := fun _ _ => .ok []
    scraper := fun _ => .ok pageA
    summarizer := fun _ _ => .ok []
    reporter := fun t sums => .ok (generate_report (.ok "report") "2024-01-01" t sums) }

/-- A capability bundle where every stage up to Summarize succeeds and the
report capability raises. -/
def reporterDownCaps : Capabilities :=
  { planner := fun _ _ => .ok ["q1"]
    searcher := fun _ _ => .ok [hitA]
    scraper := fun _ => .ok pageA
    summarizer := fun _ _ => .ok [sumA]
    reporter := fun _ _ => .error "model down" }

/-- C1: for every list of per-query search results (any size, including
zero queries) and every max_sources, the Search stage's output batch is the
concatenated per-query results deduplicated by URL keeping the first
occurrence, dropping entries with an empty URL, then truncated to
max_sources; the output length never exceeds max_sources, and applying the
same reduction to the output reproduces it (idempotence). -/
theorem c1_search_stage (resultsFor : String → List SourceHit)
    (s : ResearchState) :
    search_node (fun q _ => .ok (resultsFor q)) s =
      { search_results :=
          some (searchReduce (s.search_queries.map resultsFor).flatten
            s.max_sources)
        queries_executed := some s.search_queries.length
        current_step := some "search_complete" } ∧
    searchReduce (s.search_queries.map resultsFor).flatten s.max_sources =
      (firstOccurrences (s.search_queries.map resultsFor).flatten).take
        s.max_sources ∧
    (searchReduce (s.search_queries.map resultsFor).flatten
      s.max_sources).length ≤ s.max_sources ∧
    searchReduce
        (searchReduce (s.search_queries.map resultsFor).flatten s.max_sources)
        s.max_sources =
      searchReduce (s.search_queries.map resultsFor).flatten s.max_sources := by
  refine ⟨?_, ?_, searchReduce_length_le _ _, searchReduce_idem _ _⟩
  · rw [search_node, runSearches_ok]
  · rw [searchReduce, dedupByUrl_eq_firstOccurrences]

/-- C2: the continuation predicate returns "end" whenever error is set (a
non-empty message, which is what the code's truthiness test reads as set),
regardless of should_continue; otherwise it returns "continue" exactly when
should_continue is true, defaulting to true when the key is absent, and
"end" otherwise. -/
theorem c2_continuation (e : Option String) (sc : Option Bool) :
    ((∃ m, e = some m ∧ m ≠ "") → should_continue_research e sc = "end") ∧
    (¬(∃ m, e = some m ∧ m ≠ "") →
      (should_continue_research e sc = "continue" ↔ sc.getD true = true)) ∧
    (¬(∃ m, e = some m ∧ m ≠ "") → sc.getD true = false →
      should_continue_research e sc = "end") := by
  refine ⟨?_, ?_, ?_⟩
  · rintro ⟨m, rfl, hm⟩
    simp [should_continue_research, errTruthy, hm]
  · intro hno
    have he : errTruthy e = false := by
      cases e with
      | none => rfl
      | some m =>
          have hm : m = "" := by
            by_contra hc
            exact hno ⟨m, rfl, hc⟩
          subst hm
          simp [errTruthy]
    cases sc with
    | none => simp [should_continue_research, he]
    | some b => cases b <;> simp [should_continue_research, he]
  · intro hno hsc
    have he : errTruthy e = false := by
      cases e with
      | none => rfl
      | some m =>
          have hm : m = "" := by
            by_contra hc
            exact hno ⟨m, rfl, hc⟩
          subst hm
          simp [errTruthy]
    cases sc with
    | none => simp at hsc
    | some b =>
        cases b
        · simp [should_continue_research, he]
        · simp at hsc

/-- Witness for C2 at the three concrete states the spec lists. -/
theorem c2_continuation_witness :
    should_continue_research (some "x") (some true) = "end" ∧
    should_continue_research none (some true) = "continue" ∧
    should_continue_research none (some false) = "end" := by
  refine ⟨(c2_continuation (some "x") (some true)).1 ⟨"x", rfl, by decide⟩,
    ?_, ?_⟩
  · exact ((c2_continuation none (some true)).2.1 (by simp)).mpr rfl
  · exact (c2_continuation none (some false)).2.2 (by simp) rfl

/-- C3: the merge applied after a stage leaves fields absent from the
update untouched; the three accumulating fields are concatenated, so the
pre-merge sequence is always a prefix of the post-merge sequence; every
other field present in the update is overwritten. -/
theorem c3_merge_semantics (s : ResearchState) (u : StateUpdate) :
    (∀ l, u.search_results = some l →
      (mergeState s u).search_results = s.search_results ++ l) ∧
    (u.search_results = none →
      (mergeState s u).search_results = s.search_results) ∧
    s.search_results <+: (mergeState s u).search_results ∧
    (∀ l, u.scraped_content = some l →
      (mergeState s u).scraped_content = s.scraped_content ++ l) ∧
    (u.scraped_content = none →
      (mergeState s u).scraped_content = s.scraped_content) ∧
    s.scraped_content <+: (mergeState s u).scraped_content ∧
    (∀ l, u.summaries = some l →
      (mergeState s u).summaries = s.summaries ++ l) ∧
    (u.summaries = none → (mergeState s u).summaries = s.summaries) ∧
    s.summaries <+: (mergeState s u).summaries ∧
    (u.topic = none → (mergeState s u).topic = s.topic) ∧
    (∀ v, u.topic = some v → (mergeState s u).topic = v) ∧
    (u.depth = none → (mergeState s u).depth = s.depth) ∧
    (∀ v, u.depth = some v → (mergeState s u).depth = v) ∧
    (u.max_sources = none → (mergeState s u).max_sources = s.max_sources) ∧
    (∀ v, u.max_sources = some v → (mergeState s u).max_sources = v) ∧
    (u.research_plan = none →
      (mergeState s u).research_plan = s.research_plan) ∧
    (∀ v, u.research_plan = some v → (mergeState s u).research_plan = some v) ∧
    (u.search_queries = none →
      (mergeState s u).search_queries = s.search_queries) ∧
    (∀ v, u.search_queries = some v → (mergeState s u).search_queries = v) ∧
    (u.final_report = none → (mergeState s u).final_report = s.final_report) ∧
    (∀ v, u.final_report = some v → (mergeState s u).final_report = some v) ∧
    (u.report_metadata = none →
      (mergeState s u).report_metadata = s.report_metadata) ∧
    (∀ v, u.report_metadata = some v →
      (mergeState s u).report_metadata = some v) ∧
    (u.current_step = none → (mergeState s u).current_step = s.current_step) ∧
    (∀ v, u.current_step = some v → (mergeState s u).current_step = v) ∧
    (u.queries_executed = none →
      (mergeState s u).queries_executed = s.queries_executed) ∧
    (∀ v, u.queries_executed = some v →
      (mergeState s u).queries_executed = v) ∧
    (u.pages_scraped = none →
      (mergeState s u).pages_scraped = s.pages_scraped) ∧
    (∀ v, u.pages_scraped = some v → (mergeState s u).pages_scraped = v) ∧
    (u.should_continue = none →
      (mergeState s u).should_continue = s.should_continue) ∧
    (∀ v, u.should_continue = some v → (mergeState s u).should_continue = v) ∧
    (u.error = none → (mergeState s u).error = s.error) ∧
    (∀ v, u.error = some v → (mergeState s u).error = some v) := by
  refine ⟨fun l h => by simp [mergeState, h],
    fun h => by simp [mergeState, h],
    ⟨u.search_results.getD [], rfl⟩,
    fun l h => by simp [mergeState, h],
    fun h => by simp [mergeState, h],
    ⟨u.scraped_content.getD [], rfl⟩,
    fun l h => by simp [mergeState, h],
    fun h => by simp [mergeState, h],
    ⟨u.summaries.getD [], rfl⟩,
    fun h => by simp [mergeState, h],
    fun v h => by simp [mergeState, h],
    fun h => by simp [mergeState, h],
    fun v h => by simp [mergeState, h],
    fun h => by simp [mergeState, h],
    fun v h => by simp [mergeState, h],
    fun h => by simp [mergeState, overwriteOpt, h],
    fun v h => by simp [mergeState, overwriteOpt, h],
    fun h => by simp [mergeState, h],
    fun v h => by simp [mergeState, h],
    fun h => by simp [mergeState, overwriteOpt, h],
    fun v h => by simp [mergeState, overwriteOpt, h],
    fun h => by simp [mergeState, overwriteOpt, h],
    fun v h => by simp [mergeState, overwriteOpt, h],
    fun h => by simp [mergeState, h],
    fun v h => by simp [mergeState, h],
    fun h => by simp [mergeState, h],
    fun v h => by simp [mergeState, h],
    fun h => by simp [mergeState, h],
    fun v h => by simp [mergeState, h],
    fun h => by simp [mergeState, h],
    fun v h => by simp [mergeState, h],
    fun h => by simp [mergeState, overwriteOpt, h],
    fun v h => by simp [mergeState, overwriteOpt, h]⟩

/-- Witness for C3 at a concrete state and a concrete partial update that
sets only summaries and current_step. -/
theorem c3_merge_semantics_witness :
    (mergeState exState
      { summaries := some [sumA], current_step := some "summarization_complete" }).summaries =
        exState.summaries ++ [sumA] ∧
    (mergeState exState
      { summaries := some [sumA], current_step := some "summarization_complete" }).search_results =
        exState.search_results ∧
    (mergeState exState
      { summaries := some [sumA], current_step := some "summarization_complete" }).current_step =
        "summarization_complete" := by
  have h := c3_merge_semantics exState
    { summaries := some [sumA], current_step := some "summarization_complete" }
  exact ⟨h.2.2.2.2.2.2.1 [sumA] rfl, h.2.1 rfl,
    h.2.2.2.2.2.2.2.2.2.2.2.2.2.2.2.2.2.2.2.2.2.2.2.2.1 "summarization_complete" rfl⟩

/-- C5: the Summarize stage invokes the summarization capability exactly
once, with the topic and the full scraped_content batch; when that call
succeeds its update carries all returned outcomes (successes and failures
alike), which the merge appends to summaries, and sets current_step to
summarization_complete with no error; only failure of the batch call itself
sets error (and stops the run: the predicate answers "end" after the
merge). -/
theorem c5_summarize_stage
    (summarizer : String → List ScrapedPage → Except String (List Summary))
    (s : ResearchState) :
    (summarization_node summarizer s).2 = [(s.topic, s.scraped_content)] ∧
    (∀ outcomes, summarizer s.topic s.scraped_content = .ok outcomes →
      (summarization_node summarizer s).1 =
        { summaries := some outcomes
          current_step := some "summarization_complete" } ∧
      (mergeState s (summarization_node summarizer s).1).summaries =
        s.summaries ++ outcomes) ∧
    (∀ e, summarizer s.topic s.scraped_content = .error e →
      (summarization_node summarizer s).1 =
        { error := some ("Summarization failed: " ++ e)
          should_continue := some false } ∧
      decideState (mergeState s (summarization_node summarizer s).1) =
        "end") := by
  refine ⟨rfl, ?_, ?_⟩
  · intro outcomes h
    constructor
    · simp [summarization_node, h]
    · simp [summarization_node, h, mergeState]
  · intro e h
    have hne := str_append_ne_empty "Summarization failed: " e (by decide)
    constructor
    · simp [summarization_node, h]
    · simp [summarization_node, h, mergeState, overwriteOpt, decideState,
        should_continue_research, errTruthy, hne]

/-- Witness for C5 at a concrete state and a batch capability returning one
success and one failure. -/
theorem c5_summarize_stage_witness :
    (summarization_node (fun _ _ => .ok [sumA, sumFail]) exState).2 =
      [(exState.topic, exState.scraped_content)] ∧
    (summarization_node (fun _ _ => .ok [sumA, sumFail]) exState).1 =
      { summaries := some [sumA, sumFail]
        current_step := some "summarization_complete" } ∧
    (mergeState exState
      ((summarization_node (fun _ _ => .ok [sumA, sumFail]) exState)).1).summaries =
        exState.summaries ++ [sumA, sumFail] := by
  have h := c5_summarize_stage (fun _ _ => .ok [sumA, sumFail]) exState
  exact ⟨h.1, (h.2.1 [sumA, sumFail] rfl).1, (h.2.1 [sumA, sumFail] rfl).2⟩

/-- C4, counterexample: when the planner capability raises on the very
first stage, the run terminates with current_step still "initialized" —
neither "completed" nor "failed" — because the failing node's update sets
only error and should_continue.  Only the Plan stage executes. -/
theorem c4_counterexample :
    (runPipeline plannerDownCaps (create_initial_state "t" "standard" 5)).1.current_step =
      "initialized" ∧
    (runPipeline plannerDownCaps (create_initial_state "t" "standard" 5)).1.current_step ≠
      "completed" ∧
    (runPipeline plannerDownCaps (create_initial_state "t" "standard" 5)).1.current_step ≠
      "failed" ∧
    (runPipeline plannerDownCaps (create_initial_state "t" "standard" 5)).1.error =
      some "Planning failed: LLM down" ∧
    (runPipeline plannerDownCaps (create_initial_state "t" "standard" 5)).2 =
      [Stage.plan] := by
  refine ⟨rfl, by decide, by decide, rfl, rfl⟩

/-- C4, amended: for every run started from an initial state, whenever the
terminal current_step is "failed" the error field holds a non-empty
message; the terminal current_step, however, is not always "completed" or
"failed": it is one of the spec's step tags, and a failure in a stage
before Report leaves it at the previous stage's value. -/
theorem c4_terminal_state (caps : Capabilities) (topic depth : String)
    (max_sources : Nat) :
    ((runPipeline caps (create_initial_state topic depth max_sources)).1.current_step =
        "failed" →
      ∃ m, (runPipeline caps (create_initial_state topic depth max_sources)).1.error =
          some m ∧ m ≠ "") ∧
    (runPipeline caps (create_initial_state topic depth max_sources)).1.current_step ∈
      stepTags := by
  have hs : stateOK (create_initial_state topic depth max_sources) := by
    constructor
    · simp [create_initial_state, stepTags]
    · intro h
      simp [create_initial_state] at h
  have h := runFrom_stateOK caps pipelineStages _ hs
  exact ⟨h.2, h.1⟩

/-- Witness for C4's amended theorem: a run whose Report capability raises
really ends with current_step "failed" and a non-empty error message. -/
theorem c4_terminal_state_witness :
    (runPipeline reporterDownCaps (create_initial_state "t" "quick" 5)).1.current_step =
      "failed" ∧
    (∃ m, (runPipeline reporterDownCaps (create_initial_state "t" "quick" 5)).1.error =
        some m ∧ m ≠ "") ∧
    (runPipeline reporterDownCaps (create_initial_state "t" "quick" 5)).1.current_step ∈
      stepTags := by
  have h := c4_terminal_state reporterDownCaps "t" "quick" 5
  exact ⟨by decide, h.1 (by decide), h.2⟩

/-- C6: with a scrape capability that never raises (failure is reported
through the success flag, as the tool guarantees), the Scrape stage visits
the entries with a non-empty URL in input order, keeps exactly the outcomes
reporting success in that order, never aborts on an individual failure —
its update is always the success update, whatever the success flags — and
sets pages_scraped to the length of its output batch. -/
theorem c6_scrape_stage (f : String → ScrapedPage) (s : ResearchState) :
    scraping_node (fun u => .ok (f u)) s =
      { scraped_content :=
          some (((s.search_results.filter (fun r => r.url ≠ "")).map
            (fun r => f r.url)).filter (fun p => p.success))
        pages_scraped :=
          some ((((s.search_results.filter (fun r => r.url ≠ "")).map
            (fun r => f r.url)).filter (fun p => p.success)).length)
        current_step := some "scraping_complete" } := by
  rw [scraping_node, runScrapes_ok]

/-- C7, counterexample: with depth "standard" (5 queries requested) and a
failing provider, the planner capability does not fail — it answers the
five fallback queries — and the Plan stage succeeds: search_queries is set,
no error, should_continue untouched.  This contradicts the claim that a
provider failure surfaces as a capability error and an error update with no
queries. -/
theorem c7_counterexample :
    generate_search_queries (.error "provider down") "t" 5 =
      ["t", "t latest developments", "t recent advances", "t research 2024",
        "t overview"] ∧
    planning_node
        (fun topic n => .ok (generate_search_queries (.error "provider down") topic n))
        (create_initial_state "t" "standard" 5) =
      { search_queries :=
          some ["t", "t latest developments", "t recent advances",
            "t research 2024", "t overview"]
        current_step := some "planning_complete" } := by
  exact ⟨rfl, rfl⟩

/-- C7, amended: when the planning provider fails, the planner capability
swallows the failure and returns the topic-derived fallback queries
truncated to the requested count, so the Plan stage succeeds with those
queries and no error; the Plan stage produces the error update (error set,
should_continue false, no queries) only when the planner call itself
raises. -/
theorem c7_planner_fallback (e : String) (s : ResearchState) :
    planning_node
        (fun topic n => .ok (generate_search_queries (.error e) topic n)) s =
      { search_queries :=
          some ((fallback_queries s.topic).take (depth_to_queries s.depth))
        current_step := some "planning_complete" } ∧
    (∀ e2, planning_node (fun _ _ => .error e2) s =
      { error := some ("Planning failed: " ++ e2)
        should_continue := some false }) := by
  exact ⟨rfl, fun e2 => rfl⟩

/-- Witness for C7's amended theorem at a concrete failure and state. -/
theorem c7_planner_fallback_witness :
    planning_node
        (fun topic n => .ok (generate_search_queries (.error "provider down") topic n))
        exState =
      { search_queries :=
          some ((fallback_queries exState.topic).take
            (depth_to_queries exState.depth))
        current_step := some "planning_complete" } ∧
    planning_node (fun _ _ => .error "provider down") exState =
      { error := some ("Planning failed: " ++ "provider down")
        should_continue := some false } := by
  have h := c7_planner_fallback "provider down" exState
  exact ⟨h.1, h.2 "provider down"⟩

/-- C8: the Report stage sets should_continue to false whether it succeeds
or fails; when the report chain's LLM call succeeds the update sets
final_report, the metadata (word count, source count, timestamp, and a
source list drawn only from the successful summaries), and current_step
"completed"; when the capability reports failure or the call raises, the
update sets error and current_step "failed". -/
theorem c8_report_stage (chainResp : Except String String) (now : String)
    (s : ResearchState) :
    (report_generation_node
        (fun t sums => .ok (generate_report chainResp now t sums)) s).should_continue =
      some false ∧
    (∀ report, chainResp = .ok report →
      report_generation_node
          (fun t sums => .ok (generate_report chainResp now t sums)) s =
        { final_report := some report
          report_metadata := some
            { word_count := some (wordCount report)
              num_sources := some s.summaries.length
              generated_at := some now
              sources := extract_source_list s.summaries }
          current_step := some "completed"
          should_continue := some false } ∧
      (∀ src ∈ extract_source_list s.summaries,
        ∃ sm ∈ s.summaries, sm.success = true ∧
          src.title = sm.title ∧ src.url = sm.url)) ∧
    (∀ e, chainResp = .error e →
      report_generation_node
          (fun t sums => .ok (generate_report chainResp now t sums)) s =
        { error := some ("Report generation failed: " ++ e)
          should_continue := some false
          current_step := some "failed" }) ∧
    (∀ e2, report_generation_node (fun _ _ => .error e2) s =
      { error := some ("Report generation failed: " ++ e2)
        should_continue := some false
        current_step := some "failed" }) := by
  refine ⟨?_, ?_, ?_, fun e2 => rfl⟩
  · cases chainResp with
    | ok report => simp [report_generation_node, generate_report]
    | error e => simp [report_generation_node, generate_report]
  · rintro report rfl
    exact ⟨by simp [report_generation_node, generate_report],
      extract_source_list_sound s.summaries⟩
  · rintro e rfl
    simp [report_generation_node, generate_report]

/-- Witness for C8 at a concrete chain response, state, and raising
capability. -/
theorem c8_report_stage_witness :
    (report_generation_node
        (fun t sums => .ok (generate_report (.ok "w1 w2") "2024-01-01" t sums))
        exState).should_continue = some false ∧
    report_generation_node
        (fun t sums => .ok (generate_report (.ok "w1 w2") "2024-01-01" t sums))
        exState =
      { final_report := some "w1 w2"
        report_metadata := some
          { word_count := some (wordCount "w1 w2")
            num_sources := some exState.summaries.length
            generated_at := some "2024-01-01"
            sources := extract_source_list exState.summaries }
        current_step := some "completed"
        should_continue := some false } ∧
    report_generation_node (fun _ _ => .error "model down") exState =
      { error := some ("Report generation failed: " ++ "model down")
        should_continue := some false
        current_step := some "failed" } := by
  have h := c8_report_stage (.ok "w1 w2") "2024-01-01" exState
  exact ⟨h.1, (h.2.1 "w1 w2" rfl).1, h.2.2.2 "model down"⟩

/-- C9: the run invokes a non-empty prefix of the fixed stage order Plan,
Search, Scrape, Summarize, Report; the final state is the left fold of
invoke-then-merge steps over exactly the executed stages (each update is
merged before the next stage begins); the continuation predicate, evaluated
after each merge, answered "continue" at every intermediate state, and if
the run stopped before the fifth stage the predicate answered "end" at the
final state. -/
theorem c9_orchestration (caps : Capabilities) (s0 : ResearchState) :
    (runPipeline caps s0).2 ≠ [] ∧
    (runPipeline caps s0).2 <+: pipelineStages ∧
    (runPipeline caps s0).1 =
      (runPipeline caps s0).2.foldl (stepState caps) s0 ∧
    (∀ k, k + 1 < (runPipeline caps s0).2.length →
      decideState (((runPipeline caps s0).2.take (k + 1)).foldl
        (stepState caps) s0) = "continue") ∧
    ((runPipeline caps s0).2.length < pipelineStages.length →
      decideState (runPipeline caps s0).1 = "end") := by
  have h := runFrom_spec caps pipelineStages s0
  exact ⟨h.2.2.2.2 (by simp [pipelineStages]), h.1, h.2.1, h.2.2.2.1,
    h.2.2.1⟩

/-- Witness for C9: the planner-failing run executes exactly the Plan stage
and its final state is the single merge step, with the predicate answering
"end". -/
theorem c9_orchestration_witness :
    (runPipeline plannerDownCaps (create_initial_state "t" "standard" 5)).2 =
      [Stage.plan] ∧
    decideState
      (runPipeline plannerDownCaps (create_initial_state "t" "standard" 5)).1 =
        "end" := by
  have h := c9_orchestration plannerDownCaps (create_initial_state "t" "standard" 5)
  exact ⟨by decide, h.2.2.2.2 (by decide)⟩

/-- C10: whenever Plan, Search, Scrape or Summarize takes its exception
branch, the update it returns holds exactly error (the stage's prefixed
message) and should_continue = false and nothing else, so the merge leaves
current_step and every data field and counter at its previous value — in
particular none of these four stages ever sets current_step to "failed". -/
theorem c10_stage_failure_frame (s : ResearchState) (e : String)
    (planner : String → Nat → Except String (List String))
    (searcher : String → Nat → Except String (List SourceHit))
    (scraper : String → Except String ScrapedPage)
    (summarizer : String → List ScrapedPage → Except String (List Summary)) :
    (planner s.topic (depth_to_queries s.depth) = .error e →
      pureFailureFrame s (planning_node planner s) ("Planning failed: " ++ e)) ∧
    (runSearches searcher s.search_queries = .error e →
      pureFailureFrame s (search_node searcher s) ("Search failed: " ++ e)) ∧
    (runScrapes scraper s.search_results = .error e →
      pureFailureFrame s (scraping_node scraper s) ("Scraping failed: " ++ e)) ∧
    (summarizer s.topic s.scraped_content = .error e →
      pureFailureFrame s ((summarization_node summarizer s).1)
        ("Summarization failed: " ++ e)) := by
  refine ⟨?_, ?_, ?_, ?_⟩
  · intro h
    simp [planning_node, h, pureFailureFrame, mergeState, overwriteOpt]
  · intro h
    simp [search_node, h, pureFailureFrame, mergeState, overwriteOpt]
  · intro h
    simp [scraping_node, h, pureFailureFrame, mergeState, overwriteOpt]
  · intro h
    simp [summarization_node, h, pureFailureFrame, mergeState, overwriteOpt]

/-- Witness for C10: all four exception branches at a concrete mid-run
state and a concrete raising capability. -/
theorem c10_stage_failure_frame_witness :
    pureFailureFrame exState
      (planning_node (fun _ _ => .error "boom") exState)
      ("Planning failed: " ++ "boom") ∧
    pureFailureFrame exState
      (search_node (fun _ _ => .error "boom") exState)
      ("Search failed: " ++ "boom") ∧
    pureFailureFrame exState
      (scraping_node (fun _ => .error "boom") exState)
      ("Scraping failed: " ++ "boom") ∧
    pureFailureFrame exState
      ((summarization_node (fun _ _ => .error "boom") exState).1)
      ("Summarization failed: " ++ "boom") := by
  have h := c10_stage_failure_frame exState "boom"
    (fun _ _ => .error "boom") (fun _ _ => .error "boom")
    (fun _ => .error "boom") (fun _ _ => .error "boom")
  exact ⟨h.1 rfl, h.2.1 rfl, h.2.2.1 rfl, h.2.2.2 rfl⟩

end ResearchAgent
